import Mathlib

/-!
Shallow embedding of `src/telegram-bot.py` (class `TelegramBot`).

External collaborators (Telegram transport, Gemini inference, file download,
PyPDF2 page extraction) are modelled by outcome parameters: each call either
returns a value (`Res.ok`) or raises an exception (`Res.exn`).  The MongoDB
database is modelled as an explicit state (`DB`) with the four collections the
code touches: `users`, `chat_history`, `image_analysis`, `document_analysis`.
Write-time timestamps (`datetime.utcnow()`) are not modelled; no claim
mentions them.  Each handler is a pure function of its inputs, the outcomes of
its external calls and the database state, returning the list of
inference/extraction/download calls it performed, the new database state
(Mongo writes all happen before any point where an uncaught exception can be
raised, so the state is well defined even on the exceptional path) and either
the reply text or a propagated exception.
-/

/-- Outcome of a call into an external collaborator: a returned value or a
raised exception. -/
inductive Res (α : Type) where
  | ok (val : α)
  | exn
deriving DecidableEq, Repr

/-- A stored document of the `users` collection.  A field is `none` when the
document does not carry it (never written, or written as Python `None`;
MongoDB's null/missing distinction is irrelevant to the claims). -/
structure UserDoc where
  chat_id : Int
  first_name : Option String
  username : Option String
  phone_number : Option String
deriving DecidableEq, Repr

/-- An update document passed to `save_user` / `update_one({"$set": ...})`.
An outer `none` means the key is absent from the update document (so `$set`
leaves the stored field alone); `some v` means the key is present with value
`v` (itself optional, since e.g. `user.username` may be Python `None`). -/
structure UserUpdate where
  chat_id : Int
  first_name : Option (Option String) := none
  username : Option (Option String) := none
  phone_number : Option (Option String) := none
deriving DecidableEq, Repr

/-- One stored field after `$set`: overwritten when the update carries the
key, kept otherwise. -/
def setField (cur : Option String) (upd : Option (Option String)) : Option String :=
  match upd with
  | none => cur
  | some v => v

/-- Effect of `update_one({"chat_id": c}, {"$set": u})` on one matching
document. -/
def applySet (d : UserDoc) (u : UserUpdate) : UserDoc :=
  { chat_id := d.chat_id
    first_name := setField d.first_name u.first_name
    username := setField d.username u.username
    phone_number := setField d.phone_number u.phone_number }

/-- The document inserted by an upsert when no document matches: the filter's
`chat_id` together with the `$set` fields. -/
def newDocOfUpdate (u : UserUpdate) : UserDoc :=
  { chat_id := u.chat_id
    first_name := u.first_name.getD none
    username := u.username.getD none
    phone_number := u.phone_number.getD none }

/-- `update_one(filter, set, upsert=True)` on the `users` collection: update
the first document whose `chat_id` matches, insert a fresh document when none
does. -/
def upsertUsers : List UserDoc → UserUpdate → List UserDoc
  | [], u => [newDocOfUpdate u]
  | d :: ds, u =>
      if d.chat_id == u.chat_id then applySet d u :: ds
      else d :: upsertUsers ds u

/-- A document of the `chat_history` collection (timestamp omitted). -/
structure ChatRecord where
  chat_id : Int
  user_message : String
  bot_response : String
deriving DecidableEq, Repr

/-- A document of the `image_analysis` or `document_analysis` collection
(timestamp omitted); `source_ref` is the `image_url` / `document_url` field. -/
structure MediaRecord where
  chat_id : Int
  source_ref : String
  description : String
deriving DecidableEq, Repr

/-- The database state: the four collections `telegram_bot` uses. -/
structure DB where
  users : List UserDoc
  chat_history : List ChatRecord
  image_analysis : List MediaRecord
  document_analysis : List MediaRecord
deriving DecidableEq, Repr

/-- An empty database. -/
def emptyDB : DB := ⟨[], [], [], []⟩

/-- One recorded call into an external collaborator, used to count inference,
extraction and download calls. -/
inductive Call where
  | genText (prompt : String)
  | genVision
  | extractPdf
  | download
deriving DecidableEq, Repr

/-- Python's `s[:n]` on a `str`: the first `n` code points. -/
def pyTrunc (s : String) (n : Nat) : String := ⟨s.data.take n⟩

/-- Python's `s.lower()`: lower-case each character. -/
def pyLower (s : String) : String := ⟨s.data.map Char.toLower⟩

/-- Python's `s.endswith(p)`. -/
def pyEndsWith (s p : String) : Bool := p.data.isSuffixOf s.data

/-- Result of `page.extract_text()` for one PDF page: a returned value
(`none` models Python `None`) or a raised exception. -/
inductive PageResult where
  | extracted (t : Option String)
  | raised
deriving DecidableEq, Repr

/-- A PDF as PyPDF2 sees it: either `PdfReader` (or its `pages`) raises, or
the document parses into a list of pages with their per-page extraction
outcomes. -/
inductive PdfDoc where
  | unparsable
  | parsed (pages : List PageResult)
deriving DecidableEq, Repr

/-- What one non-raising page appends to the accumulator:
`page.extract_text() or ""`. -/
def pageContrib : PageResult → String
  | .extracted t => t.getD ""
  | .raised => ""

/-- The `for page_num in range(len(pdf_reader.pages))` loop of
`extract_text_from_pdf`: appends `page.extract_text() or ""` per page; a
raising page aborts the loop (the outer `except` catches), keeping the text
accumulated so far. -/
def extractPages : String → List PageResult → String
  | acc, [] => acc
  | acc, .raised :: _ => acc
  | acc, .extracted t :: ps => extractPages (acc ++ t.getD "") ps

namespace TelegramBot

/-- `TelegramBot.extract_text_from_pdf`: `""` when opening/parsing the PDF
raises, otherwise the page loop's accumulator. -/
def extract_text_from_pdf : PdfDoc → String
  | .unparsable => ""
  | .parsed ps => extractPages "" ps

/-- `TelegramBot.save_user`:
`update_one({"chat_id": ...}, {"$set": user_data}, upsert=True)`. -/
def save_user (db : DB) (u : UserUpdate) : DB :=
  { db with users := upsertUsers db.users u }

/-- `TelegramBot.save_chat_history`: `chat_history.insert_one`. -/
def save_chat_history (db : DB) (r : ChatRecord) : DB :=
  { db with chat_history := db.chat_history ++ [r] }

/-- `TelegramBot.start`: upserts `{chat_id, first_name, username}` and replies
with the contact-request prompt (the keyboard directive is not modelled). -/
def start (chat_id : Int) (first_name : String) (username : Option String)
    (db : DB) : DB × String :=
  (save_user db
      { chat_id := chat_id
        first_name := some (some first_name)
        username := some username },
   "Hello! Please share your contact to complete registration.")

/-- `TelegramBot.handle_contact`: upserts `{chat_id, phone_number}` and
acknowledges. -/
def handle_contact (chat_id : Int) (phone_number : String) (db : DB) :
    DB × String :=
  (save_user db
      { chat_id := chat_id
        phone_number := some (some phone_number) },
   "Thanks for sharing your contact!")

/-- `TelegramBot.handle_message`.  `gen` is the outcome of
`model.generate_content(message)`; `Res.ok none` models a falsy (`None`)
response, `Res.ok (some t)` a truthy response with `.text = t`.  There is no
`try` here: an exception from the inference call propagates out of the
handler, before any record is written or reply sent. -/
def handle_message (chat_id : Int) (message : String)
    (gen : Res (Option String)) (db : DB) : List Call × DB × Res String :=
  ([Call.genText message],
   match gen with
   | .exn => (db, .exn)
   | .ok r =>
       let response_text := r.getD "I couldn't process that."
       (save_chat_history db
          { chat_id := chat_id
            user_message := message
            bot_response := response_text },
        .ok (pyTrunc response_text 4096)))

/-- `TelegramBot.handle_photo`.  `download` is the outcome of
`file.download_as_bytearray()` (bytes left abstract), `gen` the outcome of
`vision_model.generate_content` on them.  The whole body is inside
`try/except Exception`, so a failing download or inference call yields the
error reply with no record written and nothing propagates. -/
def handle_photo (chat_id : Int) (file_path : String) (download : Res Unit)
    (gen : Res (Option String)) (db : DB) : List Call × DB × String :=
  match download with
  | .exn =>
      ([Call.download], db,
       "There was an error analyzing the image. Please try again later.")
  | .ok _ =>
      match gen with
      | .exn =>
          ([Call.download, Call.genVision], db,
           "There was an error analyzing the image. Please try again later.")
      | .ok r =>
          let analysis := r.getD "Could not analyze the image."
          ([Call.download, Call.genVision],
           { db with image_analysis :=
               db.image_analysis ++
                 [{ chat_id := chat_id
                    source_ref := file_path
                    description := analysis }] },
           pyTrunc analysis 4096)

/-- `TelegramBot.handle_document`.  `download` is the outcome of
`file.download_as_bytearray()` viewed through PyPDF2 (`PdfDoc`), `gen` the
outcome of `model.generate_content` as a function of its prompt.  There is no
`try`: an exception from the download or the inference call propagates out of
the handler, before the record is written. -/
def handle_document (chat_id : Int) (file_path : String) (file_name : String)
    (download : Res PdfDoc) (gen : String → Res (Option String)) (db : DB) :
    List Call × DB × Res String :=
  if pyEndsWith (pyLower file_name) ".pdf" then
    match download with
    | .exn => ([Call.download], db, .exn)
    | .ok pdf =>
        let text := extract_text_from_pdf pdf
        if text = "" then
          ([Call.download, Call.extractPdf],
           { db with document_analysis :=
               db.document_analysis ++
                 [{ chat_id := chat_id
                    source_ref := file_path
                    description := "No readable text found in the PDF." }] },
           .ok (pyTrunc "No readable text found in the PDF." 4096))
        else
          match gen text with
          | .exn => ([Call.download, Call.extractPdf, Call.genText text], db, .exn)
          | .ok r =>
              let analysis := r.getD "Could not summarize the document."
              ([Call.download, Call.extractPdf, Call.genText text],
               { db with document_analysis :=
                   db.document_analysis ++
                     [{ chat_id := chat_id
                        source_ref := file_path
                        description := analysis }] },
               .ok (pyTrunc analysis 4096))
  else
    ([],
     { db with document_analysis :=
         db.document_analysis ++
           [{ chat_id := chat_id
              source_ref := file_path
              description := "Unsupported document type." }] },
     .ok (pyTrunc "Unsupported document type." 4096))

/-- `TelegramBot.web_search` on `/websearch` with argument list `args`.  No
database access at all; an exception from the inference call propagates. -/
def web_search (args : List String) (gen : String → Res (Option String))
    (db : DB) : List Call × DB × Res String :=
  if args.isEmpty then
    ([], db, .ok "Please provide a search query after /websearch")
  else
    let query := String.intercalate " " args
    let prompt := "Search the web for: " ++ query ++ " and summarize the top results."
    match gen prompt with
    | .exn => ([Call.genText prompt], db, .exn)
    | .ok r =>
        let response_text := r.getD "No search results found."
        ([Call.genText prompt], db, .ok (pyTrunc response_text 4096))

end TelegramBot

/-- The stored `users` documents whose `chat_id` matches `c`. -/
def filterEq (us : List UserDoc) (c : Int) : List UserDoc :=
  us.filter (fun d => d.chat_id == c)

/-- Concatenation of a list of strings, in order. -/
def concatAll : List String → String
  | [] => ""
  | s :: ss => s ++ concatAll ss

theorem chat_id_applySet (d : UserDoc) (u : UserUpdate) :
    (applySet d u).chat_id = d.chat_id := rfl

theorem chat_id_newDocOfUpdate (u : UserUpdate) :
    (newDocOfUpdate u).chat_id = u.chat_id := rfl

/-- Effect of one upsert on the documents matching its key, assuming the
uniqueness invariant (at most one match) beforehand: the single match is
updated, or a fresh document is inserted. -/
theorem filterEq_upsertUsers (us : List UserDoc) (u : UserUpdate)
    (h : (filterEq us u.chat_id).length ≤ 1) :
    filterEq (upsertUsers us u) u.chat_id =
      match filterEq us u.chat_id with
      | [] => [newDocOfUpdate u]
      | d :: _ => [applySet d u] := by
  induction us with
  | nil =>
      simp [filterEq, upsertUsers, List.filter, chat_id_newDocOfUpdate]
  | cons d ds ih =>
      by_cases hd : d.chat_id == u.chat_id
      · have hR : filterEq (d :: ds) u.chat_id = d :: filterEq ds u.chat_id := by
          simp [filterEq, List.filter_cons, hd]
        have htail : filterEq ds u.chat_id = [] := by
          rw [hR] at h
          simp at h
          exact h
        have hstep : upsertUsers (d :: ds) u = applySet d u :: ds := by
          simp [upsertUsers, hd]
        have hmatch : ((applySet d u).chat_id == u.chat_id) = true := by
          rw [chat_id_applySet]; exact hd
        have hL : filterEq (applySet d u :: ds) u.chat_id
            = applySet d u :: filterEq ds u.chat_id := by
          simp [filterEq, List.filter_cons, hmatch]
        rw [hstep, hL, hR, htail]
      · have hstep : upsertUsers (d :: ds) u = d :: upsertUsers ds u := by
          simp [upsertUsers, hd]
        have hfd : filterEq (d :: ds) u.chat_id = filterEq ds u.chat_id := by
          simp [filterEq, List.filter_cons, hd]
        rw [hfd] at h
        rw [hstep]
        have : filterEq (d :: upsertUsers ds u) u.chat_id
            = filterEq (upsertUsers ds u) u.chat_id := by
          simp [filterEq, List.filter_cons, hd]
        rw [this, hfd, ih h]

/-- C7: issuing `/start` twice for the same `chat_id` leaves exactly one
stored user document for that `chat_id`, and its `first_name` and `username`
are those of the second call (the upsert keyed by `chat_id` is idempotent and
creates no duplicates). -/
theorem start_twice_single_profile (c : Int) (f1 f2 : String)
    (u1 u2 : Option String) (db : DB)
    (h : (filterEq db.users c).length ≤ 1) :
    ∃ d : UserDoc,
      filterEq (TelegramBot.start c f2 u2 (TelegramBot.start c f1 u1 db).1).1.users c = [d]
      ∧ d.chat_id = c ∧ d.first_name = some f2 ∧ d.username = u2 := by
  have h1 := filterEq_upsertUsers db.users
      { chat_id := c, first_name := some (some f1), username := some u1 } h
  cases hfe : filterEq db.users c with
  | nil =>
      rw [hfe] at h1
      have h2 := filterEq_upsertUsers
        (upsertUsers db.users
          { chat_id := c, first_name := some (some f1), username := some u1 })
        { chat_id := c, first_name := some (some f2), username := some u2 }
        (by rw [show (({ chat_id := c, first_name := some (some f2), username := some u2 } : UserUpdate)).chat_id = c from rfl, h1]; simp)
      rw [h1] at h2
      exact ⟨_, h2, rfl, rfl, rfl⟩
  | cons d0 rest =>
      rw [hfe] at h1
      have h2 := filterEq_upsertUsers
        (upsertUsers db.users
          { chat_id := c, first_name := some (some f1), username := some u1 })
        { chat_id := c, first_name := some (some f2), username := some u2 }
        (by rw [show (({ chat_id := c, first_name := some (some f2), username := some u2 } : UserUpdate)).chat_id = c from rfl, h1]; simp)
      rw [h1] at h2
      refine ⟨_, h2, ?_, rfl, rfl⟩
      have hd0 : d0.chat_id = c := by
        have : d0 ∈ filterEq db.users c := by rw [hfe]; exact List.mem_cons_self d0 rest
        have := List.of_mem_filter this
        exact eq_of_beq this
      simp [chat_id_applySet, hd0]

/-- Witness for `start_twice_single_profile` at a concrete database. -/
theorem start_twice_single_profile_witness :
    ∃ d : UserDoc,
      filterEq (TelegramBot.start 7 "Bob" (some "b")
        (TelegramBot.start 7 "Ann" none emptyDB).1).1.users 7 = [d]
      ∧ d.chat_id = 7 ∧ d.first_name = some "Bob" ∧ d.username = some "b" :=
  start_twice_single_profile 7 "Ann" "Bob" none (some "b") emptyDB (by decide)

/-- C10: a contact share upserts only `chat_id` and `phone_number`; the
stored `first_name` and `username` of the existing profile are unchanged. -/
theorem handle_contact_frame (c : Int) (phone : String) (db : DB)
    (d0 : UserDoc) (h : filterEq db.users c = [d0]) :
    filterEq (TelegramBot.handle_contact c phone db).1.users c
      = [{ chat_id := d0.chat_id
           first_name := d0.first_name
           username := d0.username
           phone_number := some phone }] := by
  have h1 := filterEq_upsertUsers db.users
      { chat_id := c, phone_number := some (some phone) }
      (by rw [show (({ chat_id := c, phone_number := some (some phone) } : UserUpdate)).chat_id = c from rfl, h]; simp)
  rw [show (({ chat_id := c, phone_number := some (some phone) } : UserUpdate)).chat_id = c from rfl, h] at h1
  simpa [TelegramBot.handle_contact, TelegramBot.save_user, applySet, setField] using h1

/-- Witness for `handle_contact_frame` at a concrete database. -/
theorem handle_contact_frame_witness :
    filterEq (TelegramBot.handle_contact 5 "123"
        ⟨[⟨5, some "Ann", some "a", none⟩], [], [], []⟩).1.users 5
      = [⟨5, some "Ann", some "a", some "123"⟩] :=
  handle_contact_frame 5 "123" ⟨[⟨5, some "Ann", some "a", none⟩], [], [], []⟩
    ⟨5, some "Ann", some "a", none⟩ (by decide)

theorem string_data_nil {s : String} (h : s.data = []) : s = "" := by
  cases s; exact congrArg String.mk h

theorem string_append_data (a b : String) : (a ++ b).data = a.data ++ b.data := by
  cases a; cases b; rfl

theorem string_append_ne_empty_right (a b : String) (h : b ≠ "") : a ++ b ≠ "" := by
  intro hc
  apply h
  apply string_data_nil
  have hd : (a ++ b).data = [] := by rw [hc]
  rw [string_append_data] at hd
  exact (List.append_eq_nil.mp hd).2

/-- A list of strings containing a non-empty member concatenates to a
non-empty string. -/
theorem concatAll_ne_empty (l : List String) (s : String) (hmem : s ∈ l)
    (hne : s ≠ "") : concatAll l ≠ "" := by
  induction l with
  | nil => cases hmem
  | cons a l ih =>
      cases hmem with
      | head =>
          show s ++ concatAll l ≠ ""
          intro hc
          apply hne
          apply string_data_nil
          have hd : (s ++ concatAll l).data = [] := by rw [hc]
          rw [string_append_data] at hd
          exact (List.append_eq_nil.mp hd).1
      | tail _ hmem =>
          exact string_append_ne_empty_right a (concatAll l) (ih hmem)

/-- When no page raises, the extraction loop appends every page's
contribution in order. -/
theorem extractPages_no_raise (ps : List PageResult) (acc : String)
    (h : ∀ p ∈ ps, p ≠ PageResult.raised) :
    extractPages acc ps = acc ++ concatAll (ps.map pageContrib) := by
  induction ps generalizing acc with
  | nil => simp [extractPages, concatAll, String.append_empty]
  | cons p ps ih =>
      cases p with
      | raised => exact absurd rfl (h PageResult.raised (List.mem_cons_self _ _))
      | extracted t =>
          show extractPages (acc ++ t.getD "") ps = _
          rw [ih _ (fun q hq => h q (List.mem_cons_of_mem _ hq))]
          show _ = acc ++ concatAll (pageContrib (PageResult.extracted t) :: ps.map pageContrib)
          show _ = acc ++ (pageContrib (PageResult.extracted t) ++ concatAll (ps.map pageContrib))
          rw [← String.append_assoc]
          rfl

/-- Dropping one empty contribution leaves the concatenation unchanged. -/
theorem concatAll_map_eraseIdx (ps : List PageResult) (k : Nat)
    (hk : k < ps.length) (h : pageContrib (ps.get ⟨k, hk⟩) = "") :
    concatAll (ps.map pageContrib) = concatAll ((ps.eraseIdx k).map pageContrib) := by
  induction ps generalizing k with
  | nil => cases hk
  | cons p ps ih =>
      cases k with
      | zero =>
          have hp : pageContrib p = "" := h
          show pageContrib p ++ concatAll (ps.map pageContrib) = _
          rw [hp, String.empty_append]
          rfl
      | succ k =>
          show pageContrib p ++ concatAll (ps.map pageContrib)
              = pageContrib p ++ concatAll ((ps.eraseIdx k).map pageContrib)
          rw [ih k (Nat.lt_of_succ_lt_succ hk) h]

/-- When the extraction of page `k` raises and no earlier page does, the loop
keeps exactly the contributions of pages `0..k-1`. -/
theorem extractPages_abort (ps : List PageResult) (k : Nat) (acc : String)
    (hk : k < ps.length) (h_k : ps.get ⟨k, hk⟩ = PageResult.raised)
    (h_before : ∀ (j : Nat) (hj : j < ps.length), j < k →
      ps.get ⟨j, hj⟩ ≠ PageResult.raised) :
    extractPages acc ps = acc ++ concatAll ((ps.take k).map pageContrib) := by
  induction ps generalizing k acc with
  | nil => cases hk
  | cons p ps ih =>
      cases k with
      | zero =>
          have hp : p = PageResult.raised := h_k
          subst hp
          show acc = acc ++ concatAll ([].map pageContrib)
          rw [show concatAll ([].map pageContrib) = "" from rfl, String.append_empty]
      | succ k =>
          have hp : p ≠ PageResult.raised :=
            h_before 0 (Nat.zero_lt_succ _) (Nat.zero_lt_succ _)
          cases p with
          | raised => exact absurd rfl hp
          | extracted t =>
              show extractPages (acc ++ t.getD "") ps = _
              rw [ih k (acc ++ t.getD "") (Nat.lt_of_succ_lt_succ hk) h_k
                (fun j hj hjk => h_before (j+1) (Nat.succ_lt_succ hj) (Nat.succ_lt_succ hjk))]
              show _ = acc ++ concatAll (pageContrib (PageResult.extracted t)
                :: (ps.take k).map pageContrib)
              show _ = acc ++ (pageContrib (PageResult.extracted t)
                ++ concatAll ((ps.take k).map pageContrib))
              rw [← String.append_assoc]
              rfl

/-- C3: for a parsed document in which exactly one page `k` fails per-page
text extraction non-fatally (it yields no text; no page raises, so the
document opens and parses throughout), the extracted text is the
order-preserving concatenation of the other pages' contributions, and it is
non-empty whenever there is at least one other page (i.e. unless all pages
fail, which with exactly one failing page means a one-page document). -/
theorem extract_single_page_failure (ps : List PageResult) (k : Nat)
    (hk : k < ps.length)
    (h_ok : ∀ p ∈ ps, p ≠ PageResult.raised)
    (h_k : pageContrib (ps.get ⟨k, hk⟩) = "")
    (h_others : ∀ (j : Nat) (hj : j < ps.length), j ≠ k →
      pageContrib (ps.get ⟨j, hj⟩) ≠ "") :
    TelegramBot.extract_text_from_pdf (PdfDoc.parsed ps)
        = concatAll ((ps.eraseIdx k).map pageContrib)
      ∧ (2 ≤ ps.length →
          TelegramBot.extract_text_from_pdf (PdfDoc.parsed ps) ≠ "") := by
  have hfull : TelegramBot.extract_text_from_pdf (PdfDoc.parsed ps)
      = concatAll (ps.map pageContrib) := by
    show extractPages "" ps = _
    rw [extractPages_no_raise ps "" h_ok, String.empty_append]
  constructor
  · rw [hfull]
    exact concatAll_map_eraseIdx ps k hk h_k
  · intro hlen
    rw [hfull]
    have hj : ∃ j, ∃ hj : j < ps.length, j ≠ k := by
      cases k with
      | zero => exact ⟨1, Nat.lt_of_lt_of_le Nat.one_lt_two hlen, by simp⟩
      | succ k => exact ⟨0, Nat.lt_of_lt_of_le Nat.zero_lt_two hlen, by simp⟩
    obtain ⟨j, hjlt, hjk⟩ := hj
    exact concatAll_ne_empty (ps.map pageContrib) (pageContrib (ps.get ⟨j, hjlt⟩))
      (List.mem_map_of_mem pageContrib (List.get_mem ps j hjlt))
      (h_others j hjlt hjk)

/-- Witness for `extract_single_page_failure`: three pages, the middle one
returns `None`. -/
theorem extract_single_page_failure_witness :
    TelegramBot.extract_text_from_pdf (PdfDoc.parsed
        [PageResult.extracted (some "a"), PageResult.extracted none,
         PageResult.extracted (some "b")])
      = concatAll (([PageResult.extracted (some "a"),
          PageResult.extracted none,
          PageResult.extracted (some "b")].eraseIdx 1).map pageContrib) :=
  (extract_single_page_failure
    [PageResult.extracted (some "a"), PageResult.extracted none,
     PageResult.extracted (some "b")] 1 (by decide) (by decide) (by decide)
    (by decide)).1

/-- C9: `extract_text_from_pdf` is total by construction — every failure mode
of the source (unreadable document, raising page) is a constructor of its
input type and each returns a string, so no exception escapes.  An unreadable
document yields `""`, and when page `k` is the first page whose extraction
raises, the result is exactly the concatenation of the contributions of pages
`0..k-1` — pages after `k` contribute nothing. -/
theorem extract_total_and_raise_keeps_prior (ps : List PageResult) (k : Nat)
    (hk : k < ps.length) (h_k : ps.get ⟨k, hk⟩ = PageResult.raised)
    (h_before : ∀ (j : Nat) (hj : j < ps.length), j < k →
      ps.get ⟨j, hj⟩ ≠ PageResult.raised) :
    TelegramBot.extract_text_from_pdf PdfDoc.unparsable = ""
      ∧ TelegramBot.extract_text_from_pdf (PdfDoc.parsed ps)
          = concatAll ((ps.take k).map pageContrib) := by
  constructor
  · rfl
  · show extractPages "" ps = _
    rw [extractPages_abort ps k "" hk h_k h_before, String.empty_append]

/-- Witness for `extract_total_and_raise_keeps_prior`: the second of three
pages raises, and only the first page's text survives. -/
theorem extract_total_and_raise_keeps_prior_witness :
    TelegramBot.extract_text_from_pdf PdfDoc.unparsable = ""
      ∧ TelegramBot.extract_text_from_pdf (PdfDoc.parsed
          [PageResult.extracted (some "a"), PageResult.raised,
           PageResult.extracted (some "b")])
        = concatAll (([PageResult.extracted (some "a"), PageResult.raised,
            PageResult.extracted (some "b")].take 1).map pageContrib) :=
  extract_total_and_raise_keeps_prior
    [PageResult.extracted (some "a"), PageResult.raised,
     PageResult.extracted (some "b")] 1 (by decide) (by decide) (by decide)

theorem pyTrunc_length_le (s : String) (n : Nat) : (pyTrunc s n).length ≤ n := by
  show (s.data.take n).length ≤ n
  simp

theorem pyTrunc_append_drop (s : String) (n : Nat) :
    pyTrunc s n ++ String.mk (s.data.drop n) = s := by
  cases s with
  | mk d =>
      show String.mk (d.take n ++ d.drop n) = String.mk d
      rw [List.take_append_drop]

/-- C4: whenever a handler's reply is composed from a present inference
output `t` (text, photo, document summarization, web search), the reply is
`t[:4096]`: at most 4096 characters and an initial segment of `t`. -/
theorem reply_bounded_initial_segment (t : String) (cid : Int)
    (msg fp fn : String) (pdf : PdfDoc) (gen gw : String → Res (Option String))
    (args : List String) (db : DB)
    (hpdf : pyEndsWith (pyLower fn) ".pdf" = true)
    (hx : TelegramBot.extract_text_from_pdf pdf ≠ "")
    (hgen : gen (TelegramBot.extract_text_from_pdf pdf) = Res.ok (some t))
    (hargs : args ≠ [])
    (hgw : gw ("Search the web for: " ++ String.intercalate " " args
        ++ " and summarize the top results.") = Res.ok (some t)) :
    (TelegramBot.handle_message cid msg (Res.ok (some t)) db).2.2
        = Res.ok (pyTrunc t 4096)
      ∧ (TelegramBot.handle_photo cid fp (Res.ok ()) (Res.ok (some t)) db).2.2
        = pyTrunc t 4096
      ∧ (TelegramBot.handle_document cid fp fn (Res.ok pdf) gen db).2.2
        = Res.ok (pyTrunc t 4096)
      ∧ (TelegramBot.web_search args gw db).2.2 = Res.ok (pyTrunc t 4096)
      ∧ (pyTrunc t 4096).length ≤ 4096
      ∧ ∃ rest, pyTrunc t 4096 ++ rest = t := by
  refine ⟨rfl, rfl, ?_, ?_, pyTrunc_length_le t 4096, ⟨_, pyTrunc_append_drop t 4096⟩⟩
  · simp [TelegramBot.handle_document, hpdf, hx, hgen]
  · have hne : args.isEmpty = false := by
      cases args with
      | nil => exact absurd rfl hargs
      | cons a l => rfl
    simp [TelegramBot.web_search, hne, hgw]

/-- Witness for `reply_bounded_initial_segment` at concrete inputs. -/
theorem reply_bounded_initial_segment_witness :
    (TelegramBot.handle_message 1 "hi" (Res.ok (some "out")) emptyDB).2.2
        = Res.ok (pyTrunc "out" 4096)
      ∧ (TelegramBot.handle_photo 1 "p.jpg" (Res.ok ()) (Res.ok (some "out")) emptyDB).2.2
        = pyTrunc "out" 4096
      ∧ (TelegramBot.handle_document 1 "d" "a.pdf"
          (Res.ok (PdfDoc.parsed [PageResult.extracted (some "body")]))
          (fun _ => Res.ok (some "out")) emptyDB).2.2
        = Res.ok (pyTrunc "out" 4096)
      ∧ (TelegramBot.web_search ["q"] (fun _ => Res.ok (some "out")) emptyDB).2.2
        = Res.ok (pyTrunc "out" 4096)
      ∧ (pyTrunc "out" 4096).length ≤ 4096
      ∧ ∃ rest, pyTrunc "out" 4096 ++ rest = "out" :=
  reply_bounded_initial_segment "out" 1 "hi" "p.jpg" "a.pdf"
    (PdfDoc.parsed [PageResult.extracted (some "body")])
    (fun _ => Res.ok (some "out")) (fun _ => Res.ok (some "out")) ["q"] emptyDB
    (by decide) (by decide) rfl (by decide) rfl

/-- C1: when an event's external calls complete (download succeeds, the
inference call returns rather than raises — i.e. the event is successfully
processed), each of the text, photo and document handlers appends exactly one
record to its collection, leaving every other collection untouched; this
holds in particular when inference fails by returning no usable result
(`r = none`), in which case the stored text is the handler's fallback string,
not an error object. -/
theorem one_record_per_processed_event (cid : Int) (msg fp fn : String)
    (r : Option String) (pdf : PdfDoc) (gen : String → Res (Option String))
    (db : DB)
    (hgen : gen (TelegramBot.extract_text_from_pdf pdf) = Res.ok r) :
    TelegramBot.handle_message cid msg (Res.ok r) db
        = ([Call.genText msg],
           { db with chat_history := db.chat_history
               ++ [{ chat_id := cid, user_message := msg,
                     bot_response := r.getD "I couldn't process that." }] },
           Res.ok (pyTrunc (r.getD "I couldn't process that.") 4096))
      ∧ TelegramBot.handle_photo cid fp (Res.ok ()) (Res.ok r) db
        = ([Call.download, Call.genVision],
           { db with image_analysis := db.image_analysis
               ++ [{ chat_id := cid, source_ref := fp,
                     description := r.getD "Could not analyze the image." }] },
           pyTrunc (r.getD "Could not analyze the image.") 4096)
      ∧ (pyEndsWith (pyLower fn) ".pdf" = true →
          (TelegramBot.handle_document cid fp fn (Res.ok pdf) gen db).2
            = ({ db with document_analysis := db.document_analysis
                  ++ [{ chat_id := cid, source_ref := fp,
                        description :=
                          if TelegramBot.extract_text_from_pdf pdf = ""
                          then "No readable text found in the PDF."
                          else r.getD "Could not summarize the document." }] },
               Res.ok (pyTrunc
                 (if TelegramBot.extract_text_from_pdf pdf = ""
                  then "No readable text found in the PDF."
                  else r.getD "Could not summarize the document.") 4096)))
      ∧ (pyEndsWith (pyLower fn) ".pdf" = false →
          (TelegramBot.handle_document cid fp fn (Res.ok pdf) gen db).2
            = ({ db with document_analysis := db.document_analysis
                  ++ [{ chat_id := cid, source_ref := fp,
                        description := "Unsupported document type." }] },
               Res.ok (pyTrunc "Unsupported document type." 4096))) := by
  refine ⟨rfl, rfl, ?_, ?_⟩
  · intro hpdf
    by_cases hx : TelegramBot.extract_text_from_pdf pdf = ""
    · simp [TelegramBot.handle_document, hpdf, hx]
    · simp [TelegramBot.handle_document, hpdf, hx, hgen]
  · intro hpdf
    simp [TelegramBot.handle_document, hpdf]

/-- Witness for `one_record_per_processed_event`: a failed (absent) inference
result on a one-page PDF. -/
theorem one_record_per_processed_event_witness :
    TelegramBot.handle_message 1 "hi" (Res.ok none) emptyDB
        = ([Call.genText "hi"],
           { emptyDB with chat_history :=
               emptyDB.chat_history
               ++ [{ chat_id := 1, user_message := "hi",
                     bot_response := (none : Option String).getD "I couldn't process that." }] },
           Res.ok (pyTrunc ((none : Option String).getD "I couldn't process that.") 4096))
      ∧ TelegramBot.handle_photo 1 "p.jpg" (Res.ok ()) (Res.ok none) emptyDB
        = ([Call.download, Call.genVision],
           { emptyDB with image_analysis :=
               emptyDB.image_analysis
               ++ [{ chat_id := 1, source_ref := "p.jpg",
                     description := (none : Option String).getD "Could not analyze the image." }] },
           pyTrunc ((none : Option String).getD "Could not analyze the image.") 4096)
      ∧ (pyEndsWith (pyLower "a.pdf") ".pdf" = true →
          (TelegramBot.handle_document 1 "p.jpg" "a.pdf"
              (Res.ok (PdfDoc.parsed [PageResult.extracted (some "body")]))
              (fun _ => Res.ok none) emptyDB).2
            = ({ emptyDB with document_analysis :=
                  emptyDB.document_analysis
                  ++ [{ chat_id := 1, source_ref := "p.jpg",
                        description :=
                          if TelegramBot.extract_text_from_pdf
                              (PdfDoc.parsed [PageResult.extracted (some "body")]) = ""
                          then "No readable text found in the PDF."
                          else (none : Option String).getD "Could not summarize the document." }] },
               Res.ok (pyTrunc
                 (if TelegramBot.extract_text_from_pdf
                      (PdfDoc.parsed [PageResult.extracted (some "body")]) = ""
                  then "No readable text found in the PDF."
                  else (none : Option String).getD "Could not summarize the document.") 4096)))
      ∧ (pyEndsWith (pyLower "a.pdf") ".pdf" = false →
          (TelegramBot.handle_document 1 "p.jpg" "a.pdf"
              (Res.ok (PdfDoc.parsed [PageResult.extracted (some "body")]))
              (fun _ => Res.ok none) emptyDB).2
            = ({ emptyDB with document_analysis :=
                  emptyDB.document_analysis
                  ++ [{ chat_id := 1, source_ref := "p.jpg",
                        description := "Unsupported document type." }] },
               Res.ok (pyTrunc "Unsupported document type." 4096))) :=
  one_record_per_processed_event 1 "hi" "p.jpg" "a.pdf" none
    (PdfDoc.parsed [PageResult.extracted (some "body")])
    (fun _ => Res.ok none) emptyDB rfl

/-- C5: a document whose lower-cased filename does not end in `.pdf` yields
the "Unsupported document type." fallback as both stored text and reply,
performs no download, no extraction and no inference call (the call trace is
empty), and still appends exactly one record to `document_analysis`. -/
theorem unsupported_document_no_calls_one_record (cid : Int) (fp fn : String)
    (download : Res PdfDoc) (gen : String → Res (Option String)) (db : DB)
    (h : pyEndsWith (pyLower fn) ".pdf" = false) :
    TelegramBot.handle_document cid fp fn download gen db
      = ([],
         { db with document_analysis := db.document_analysis
             ++ [{ chat_id := cid, source_ref := fp,
                   description := "Unsupported document type." }] },
         Res.ok "Unsupported document type.") := by
  show (if pyEndsWith (pyLower fn) ".pdf" then _ else _) = _
  rw [h]
  show ([], _, Res.ok (pyTrunc "Unsupported document type." 4096)) = _
  rw [show pyTrunc "Unsupported document type." 4096
      = "Unsupported document type." from rfl]

/-- Witness for `unsupported_document_no_calls_one_record` on a `.txt`
document. -/
theorem unsupported_document_no_calls_one_record_witness :
    TelegramBot.handle_document 3 "u" "notes.TXT" Res.exn
        (fun _ => Res.exn) emptyDB
      = ([],
         { emptyDB with document_analysis := emptyDB.document_analysis
             ++ [{ chat_id := 3, source_ref := "u",
                   description := "Unsupported document type." }] },
         Res.ok "Unsupported document type.") :=
  unsupported_document_no_calls_one_record 3 "u" "notes.TXT" Res.exn
    (fun _ => Res.exn) emptyDB (by decide)

/-- C6: `/websearch` with no arguments replies with the usage message and
performs no inference call; with arguments it performs exactly one inference
call, whose prompt contains the space-joined arguments, and persists nothing
(the database is returned unchanged in every case). -/
theorem websearch_usage_and_single_call (args : List String)
    (gen : String → Res (Option String)) (db : DB) (hargs : args ≠ []) :
    TelegramBot.web_search [] gen db
        = ([], db, Res.ok "Please provide a search query after /websearch")
      ∧ (TelegramBot.web_search args gen db).1
        = [Call.genText ("Search the web for: " ++ String.intercalate " " args
            ++ " and summarize the top results.")]
      ∧ (∃ pre post,
          "Search the web for: " ++ String.intercalate " " args
              ++ " and summarize the top results."
            = pre ++ (String.intercalate " " args ++ post))
      ∧ (TelegramBot.web_search args gen db).2.1 = db := by
  have hne : args.isEmpty = false := by
    cases args with
    | nil => exact absurd rfl hargs
    | cons a l => rfl
  refine ⟨rfl, ?_, ⟨"Search the web for: ", " and summarize the top results.",
      String.append_assoc _ _ _⟩, ?_⟩
  · cases hg : gen ("Search the web for: " ++ String.intercalate " " args
        ++ " and summarize the top results.") with
    | ok r => simp [TelegramBot.web_search, hne, hg]
    | exn => simp [TelegramBot.web_search, hne, hg]
  · cases hg : gen ("Search the web for: " ++ String.intercalate " " args
        ++ " and summarize the top results.") with
    | ok r => simp [TelegramBot.web_search, hne, hg]
    | exn => simp [TelegramBot.web_search, hne, hg]

/-- Witness for `websearch_usage_and_single_call` on the query
`["lean", "four"]`. -/
theorem websearch_usage_and_single_call_witness :
    TelegramBot.web_search [] (fun _ => Res.ok (some "res")) emptyDB
        = ([], emptyDB, Res.ok "Please provide a search query after /websearch")
      ∧ (TelegramBot.web_search ["lean", "four"]
          (fun _ => Res.ok (some "res")) emptyDB).1
        = [Call.genText ("Search the web for: "
            ++ String.intercalate " " ["lean", "four"]
            ++ " and summarize the top results.")]
      ∧ (∃ pre post,
          "Search the web for: " ++ String.intercalate " " ["lean", "four"]
              ++ " and summarize the top results."
            = pre ++ (String.intercalate " " ["lean", "four"] ++ post))
      ∧ (TelegramBot.web_search ["lean", "four"]
          (fun _ => Res.ok (some "res")) emptyDB).2.1 = emptyDB :=
  websearch_usage_and_single_call ["lean", "four"]
    (fun _ => Res.ok (some "res")) emptyDB (by decide)

/-- C2 counterexample: an inference-service failure inside `handle_message`
is not caught — the handler's result is the propagated exception, not a
fallback reply. -/
theorem message_failure_propagates_cex :
    (TelegramBot.handle_message 1 "hi" Res.exn emptyDB).2.2 = Res.exn := rfl

/-- C2 amended: only `handle_photo` catches its recoverable failures —
a failing download or inference call there yields the error reply with the
database unchanged and nothing propagating.  In `handle_message` an inference
failure, and in `handle_document` a download or inference failure, propagates
out of the handler with no record written and no reply produced (the
dispatch loop surviving such an exception is the transport framework's doing,
outside this code). -/
theorem failures_caught_only_in_photo (cid : Int) (msg fp fn : String)
    (genR : Res (Option String)) (pdf : PdfDoc)
    (gen : String → Res (Option String)) (db : DB)
    (hpdf : pyEndsWith (pyLower fn) ".pdf" = true)
    (hx : TelegramBot.extract_text_from_pdf pdf ≠ "")
    (hgen : gen (TelegramBot.extract_text_from_pdf pdf) = Res.exn) :
    TelegramBot.handle_photo cid fp Res.exn genR db
        = ([Call.download], db,
           "There was an error analyzing the image. Please try again later.")
      ∧ TelegramBot.handle_photo cid fp (Res.ok ()) Res.exn db
        = ([Call.download, Call.genVision], db,
           "There was an error analyzing the image. Please try again later.")
      ∧ TelegramBot.handle_message cid msg Res.exn db
        = ([Call.genText msg], db, Res.exn)
      ∧ TelegramBot.handle_document cid fp fn Res.exn gen db
        = ([Call.download], db, Res.exn)
      ∧ (TelegramBot.handle_document cid fp fn (Res.ok pdf) gen db).2
        = (db, Res.exn) := by
  refine ⟨rfl, rfl, rfl, ?_, ?_⟩
  · simp [TelegramBot.handle_document, hpdf]
  · simp [TelegramBot.handle_document, hpdf, hx, hgen]

/-- Witness for `failures_caught_only_in_photo` at concrete inputs. -/
theorem failures_caught_only_in_photo_witness :
    TelegramBot.handle_photo 1 "p.jpg" Res.exn (Res.ok none) emptyDB
        = ([Call.download], emptyDB,
           "There was an error analyzing the image. Please try again later.")
      ∧ TelegramBot.handle_photo 1 "p.jpg" (Res.ok ()) Res.exn emptyDB
        = ([Call.download, Call.genVision], emptyDB,
           "There was an error analyzing the image. Please try again later.")
      ∧ TelegramBot.handle_message 1 "hi" Res.exn emptyDB
        = ([Call.genText "hi"], emptyDB, Res.exn)
      ∧ TelegramBot.handle_document 1 "d" "a.pdf" Res.exn
          (fun _ => Res.exn) emptyDB
        = ([Call.download], emptyDB, Res.exn)
      ∧ (TelegramBot.handle_document 1 "d" "a.pdf"
          (Res.ok (PdfDoc.parsed [PageResult.extracted (some "body")]))
          (fun _ => Res.exn) emptyDB).2
        = (emptyDB, Res.exn) :=
  failures_caught_only_in_photo 1 "hi" "d" "a.pdf" (Res.ok none)
    (PdfDoc.parsed [PageResult.extracted (some "body")])
    (fun _ => Res.exn) emptyDB (by decide) (by decide) rfl

/-- C8 counterexample: an absent inference result and a present-but-empty
one do not lead to identical behavior in `handle_message` — the stored
record and the reply differ. -/
theorem absent_vs_empty_not_identical_cex :
    (TelegramBot.handle_message 1 "m" (Res.ok (some "")) emptyDB).2
      ≠ (TelegramBot.handle_message 1 "m" (Res.ok none) emptyDB).2 := by
  decide

/-- C8 amended: the code distinguishes an absent inference result from a
present-but-empty one, because the fallback is chosen by the truthiness of
the response object, not of its text: an absent result stores and replies
with the fallback string, while a present result with empty text stores and
replies with the empty string.  Both still append exactly one record. -/
theorem absent_vs_empty_distinct_behaviors (cid : Int) (msg fp fn : String)
    (pdf : PdfDoc) (genAbsent genEmpty : String → Res (Option String))
    (db : DB)
    (hpdf : pyEndsWith (pyLower fn) ".pdf" = true)
    (hx : TelegramBot.extract_text_from_pdf pdf ≠ "")
    (hA : genAbsent (TelegramBot.extract_text_from_pdf pdf) = Res.ok none)
    (hE : genEmpty (TelegramBot.extract_text_from_pdf pdf) = Res.ok (some "")) :
    TelegramBot.handle_message cid msg (Res.ok none) db
        = ([Call.genText msg],
           { db with chat_history := db.chat_history
               ++ [{ chat_id := cid, user_message := msg,
                     bot_response := "I couldn't process that." }] },
           Res.ok "I couldn't process that.")
      ∧ TelegramBot.handle_message cid msg (Res.ok (some "")) db
        = ([Call.genText msg],
           { db with chat_history := db.chat_history
               ++ [{ chat_id := cid, user_message := msg,
                     bot_response := "" }] },
           Res.ok "")
      ∧ (TelegramBot.handle_document cid fp fn (Res.ok pdf) genAbsent db).2
        = ({ db with document_analysis := db.document_analysis
              ++ [{ chat_id := cid, source_ref := fp,
                    description := "Could not summarize the document." }] },
           Res.ok "Could not summarize the document.")
      ∧ (TelegramBot.handle_document cid fp fn (Res.ok pdf) genEmpty db).2
        = ({ db with document_analysis := db.document_analysis
              ++ [{ chat_id := cid, source_ref := fp,
                    description := "" }] },
           Res.ok "") := by
  refine ⟨rfl, rfl, ?_, ?_⟩
  · simp [TelegramBot.handle_document, hpdf, hx, hA]
    rfl
  · simp [TelegramBot.handle_document, hpdf, hx, hE]
    rfl

/-- Witness for `absent_vs_empty_distinct_behaviors` at concrete inputs. -/
theorem absent_vs_empty_distinct_behaviors_witness :
    TelegramBot.handle_message 2 "q" (Res.ok none) emptyDB
        = ([Call.genText "q"],
           { emptyDB with chat_history := emptyDB.chat_history
               ++ [{ chat_id := 2, user_message := "q",
                     bot_response := "I couldn't process that." }] },
           Res.ok "I couldn't process that.")
      ∧ TelegramBot.handle_message 2 "q" (Res.ok (some "")) emptyDB
        = ([Call.genText "q"],
           { emptyDB with chat_history := emptyDB.chat_history
               ++ [{ chat_id := 2, user_message := "q",
                     bot_response := "" }] },
           Res.ok "")
      ∧ (TelegramBot.handle_document 2 "d" "b.pdf"
          (Res.ok (PdfDoc.parsed [PageResult.extracted (some "body")]))
          (fun _ => Res.ok none) emptyDB).2
        = ({ emptyDB with document_analysis := emptyDB.document_analysis
              ++ [{ chat_id := 2, source_ref := "d",
                    description := "Could not summarize the document." }] },
           Res.ok "Could not summarize the document.")
      ∧ (TelegramBot.handle_document 2 "d" "b.pdf"
          (Res.ok (PdfDoc.parsed [PageResult.extracted (some "body")]))
          (fun _ => Res.ok (some "")) emptyDB).2
        = ({ emptyDB with document_analysis := emptyDB.document_analysis
              ++ [{ chat_id := 2, source_ref := "d",
                    description := "" }] },
           Res.ok "") :=
  absent_vs_empty_distinct_behaviors 2 "q" "d" "b.pdf"
    (PdfDoc.parsed [PageResult.extracted (some "body")])
    (fun _ => Res.ok none) (fun _ => Res.ok (some "")) emptyDB
    (by decide) (by decide) rfl rfl
